import Mathlib

/-!
Verification of the DynamicRPC presence-payload synthesizer
(src/src/userplugins/DynamicRPC/index.tsx).

The TypeScript module keeps mutable globals (rotation indices, last parsed
line pools, interval handles, the NOW-mode anchor) and exposes
`createActivity`, `setupRotationIntervals`, `clearRotationIntervals`,
`setRpc` and the plugin `start` and `stop` hooks.  We embed the module as
pure functions over an explicit `Globals` record and a `World` that also
carries the armed timers, a fresh-id counter and the list of events
dispatched to the publish sink.  JavaScript values stored in the activity
object are modelled by `JVal`; the activity object itself is an ordered
association list of string keys, matching JS property insertion order.
Nondeterministic or environmental inputs (wall clock, Math.random draws,
the asset-resolution service) are supplied by an `Oracles` record.
-/

/-- JavaScript values that appear in the activity object. -/
inductive JVal where
  | undef
  | str (s : String)
  | num (n : Int)
  | arr (l : List JVal)
  | obj (fs : List (String × JVal))

/-- JS truthiness for a `JVal` (undefined, the empty string and 0 are
falsy; arrays and objects are always truthy). -/
def jsTruthyV : JVal → Bool
  | .undef => false
  | .str s => s ≠ ""
  | .num n => n ≠ 0
  | .arr _ => true
  | .obj _ => true

/-- Whether `v.length === 0` holds in JS: true exactly for the empty
string and the empty array (numbers and plain objects have no `length`,
so the strict comparison with 0 is false there). -/
def jsLenZero : JVal → Bool
  | .str s => s.length = 0
  | .arr l => l.length = 0
  | _ => false

/-- JS truthiness of an optional string setting (`undefined` and `""` are
falsy). -/
def strTruthy : Option String → Bool
  | none => false
  | some s => s ≠ ""

/-- JS truthiness of an optional numeric setting (`undefined` and 0 are
falsy). -/
def numTruthyI : Option Int → Bool
  | none => false
  | some n => n ≠ 0

/-- Reads `x` as a `JVal`, keeping `undefined` (models reading a possibly
missing string setting). -/
def optStrVal : Option String → JVal
  | none => .undef
  | some s => .str s

/-- Models the JS expression `x || undefined`. -/
def orUndef : Option String → JVal
  | none => .undef
  | some s => if s = "" then .undef else .str s

/-- Models the JS expression `a || b` for strings (`appID || "0"`). -/
def jsOrStr (a : Option String) (b : String) : String :=
  match a with
  | none => b
  | some s => if s = "" then b else s

/-- The `TimestampMode` const enum of the source. -/
inductive TimestampMode where
  | NONE
  | NOW
  | TIME
  | CUSTOM
deriving DecidableEq

/-- The private settings record (`settings.store`); every field is
optional exactly as in the TypeScript declaration.  `type` is kept as the
numeric `ActivityType` value (PLAYING = 0, STREAMING = 1). -/
structure Config where
  appID : Option String := none
  appName : Option String := none
  details : Option String := none
  detailsRandomLines : Option String := none
  detailsRandomMode : Option String := none
  detailsRandomInterval : Option Int := none
  detailsURL : Option String := none
  state : Option String := none
  stateRandomLines : Option String := none
  stateRandomMode : Option String := none
  stateRandomInterval : Option Int := none
  stateURL : Option String := none
  type : Option Int := none
  streamLink : Option String := none
  timestampMode : Option TimestampMode := none
  startTime : Option Int := none
  endTime : Option Int := none
  imageBig : Option String := none
  imageBigURL : Option String := none
  imageBigTooltip : Option String := none
  imageSmall : Option String := none
  imageSmallURL : Option String := none
  imageSmallTooltip : Option String := none
  buttonOneText : Option String := none
  buttonOneURL : Option String := none
  buttonTwoText : Option String := none
  buttonTwoURL : Option String := none
  partySize : Option Int := none
  partyMaxSize : Option Int := none

/-- The numeric value of `ActivityType.STREAMING`. -/
def streamingType : Int := 1

/-- The module-level mutable state of the plugin: rotation indices,
interval handles, last parsed pools and the NOW-mode anchor
(`nowModeStartTime`, a `number | null` in the source, hence `Option Int`
with 0 additionally falsy). -/
structure Globals where
  detailsCurrentIndex : Nat := 0
  stateCurrentIndex : Nat := 0
  detailsIntervalId : Option Nat := none
  stateIntervalId : Option Nat := none
  lastDetailsLines : List String := []
  lastStateLines : List String := []
  nowModeStartTime : Option Int := none

/-- Environmental inputs of a build or scheduler step: the wall clock,
the seconds elapsed since local midnight (for TIME mode), one
`Math.floor(Math.random() * n)` draw per lane (as a function of the pool
length) and the external asset-resolution service. -/
structure Oracles where
  now : Int
  midElapsed : Int
  randD : Nat → Nat
  randS : Nat → Nat
  resolve : String → String

/-- JS whitespace test used by `String.prototype.trim`. -/
def isWs (c : Char) : Bool := c = ' ' || c = '\t' || c = '\n' || c = '\r'

/-- Models `String.prototype.trim` on a character list. -/
def jsTrim (l : List Char) : List Char :=
  ((l.dropWhile isWs).reverse.dropWhile isWs).reverse

/-- Models `s.split('\n')` on a character list. -/
def splitNlAux : List Char → List Char → List (List Char)
  | [], acc => [acc.reverse]
  | c :: cs, acc =>
      if c = '\n' then acc.reverse :: splitNlAux cs []
      else splitNlAux cs (c :: acc)

/-- Models `s.split('\n').filter(line => line.trim() !== '')`: the line pool a
rotation source string parses to. -/
def parseLines (s : String) : List String :=
  ((splitNlAux s.toList []).map (fun l => String.mk l)).filter
    (fun line => jsTrim line.toList ≠ [])

/-- Models `last.every((v, i) => v === lines[i])` from the pool-change check. -/
def jsEveryEq : List String → List String → Bool
  | [], _ => true
  | _ :: _, [] => false
  | v :: vs, w :: ws => v = w && jsEveryEq vs ws

/-- The pool-change condition of `createActivity`:
`last.length !== lines.length || !last.every((v, i) => v === lines[i])`. -/
def poolChanged (lastLines lines : List String) : Bool :=
  lastLines.length ≠ lines.length || !(jsEveryEq lastLines lines)

/-- Result of resolving one rotating lane inside `createActivity`: the
final text value and the updated last-pool and index globals. -/
structure LaneOut where
  value : Option String
  lastLines : List String
  idx : Nat

/-- The lane-resolution block of `createActivity` (the `finalDetails`
computation, and identically the `finalState` computation): if rotation
is enabled and the parsed pool is non-empty, reset the index on a pool
change and then pick a random line (mode "yes") or the line at the
current index modulo the pool length; otherwise keep the static text. -/
def resolveLane (mode : Option String) (linesSrc : Option String)
    (staticVal : Option String) (lastLines : List String) (idx : Nat)
    (rand : Nat → Nat) : LaneOut :=
  if strTruthy mode && mode ≠ some "disable" && strTruthy linesSrc then
    let lines := parseLines (linesSrc.getD "")
    if lines.length > 0 then
      let st := if poolChanged lastLines lines then (lines, 0) else (lastLines, idx)
      if mode = some "yes" then
        ⟨lines.get? (rand lines.length), st.1, st.2⟩
      else
        ⟨lines.get? (st.2 % lines.length), st.1, st.2⟩
    else ⟨staticVal, lastLines, idx⟩
  else ⟨staticVal, lastLines, idx⟩

/-- The details-lane resolution of `createActivity`. -/
def detailsLaneOut (cfg : Config) (g : Globals) (o : Oracles) : LaneOut :=
  resolveLane cfg.detailsRandomMode cfg.detailsRandomLines cfg.details
    g.lastDetailsLines g.detailsCurrentIndex o.randD

/-- The state-lane resolution of `createActivity`. -/
def stateLaneOut (cfg : Config) (g : Globals) (o : Oracles) : LaneOut :=
  resolveLane cfg.stateRandomMode cfg.stateRandomLines cfg.state
    g.lastStateLines g.stateCurrentIndex o.randS

/-- The object literal that initializes `activity`. -/
def baseFields (cfg : Config) (g : Globals) (o : Oracles) :
    List (String × JVal) :=
  [("application_id", .str (jsOrStr cfg.appID "0")),
   ("name", .str (cfg.appName.getD "")),
   ("state", optStrVal (stateLaneOut cfg g o).value),
   ("details", optStrVal (detailsLaneOut cfg g o).value),
   ("type", .num (cfg.type.getD 0)),
   ("flags", .num 1)]

/-- Models `if (type === ActivityType.STREAMING) activity.url = streamLink`. -/
def urlField (cfg : Config) : List (String × JVal) :=
  if cfg.type = some streamingType then [("url", optStrVal cfg.streamLink)]
  else []

/-- The value of `nowModeStartTime` after the timestamp switch: in NOW
mode a falsy anchor is (re)initialized to `Date.now()`; every other mode
leaves the anchor untouched. -/
def anchorAfter (cfg : Config) (g : Globals) (o : Oracles) : Option Int :=
  match cfg.timestampMode with
  | some .NOW =>
      if numTruthyI g.nowModeStartTime then g.nowModeStartTime else some o.now
  | _ => g.nowModeStartTime

/-- The `activity.timestamps` assignment of the timestamp switch, as the
(possibly empty) field list it contributes. -/
def tsField (cfg : Config) (g : Globals) (o : Oracles) :
    List (String × JVal) :=
  match cfg.timestampMode with
  | some .NOW =>
      [("timestamps", .obj [("start", .num ((anchorAfter cfg g o).getD 0))])]
  | some .TIME =>
      [("timestamps", .obj [("start", .num (o.now - o.midElapsed * 1000))])]
  | some .CUSTOM =>
      if numTruthyI cfg.startTime || numTruthyI cfg.endTime then
        [("timestamps", .obj
          ((if numTruthyI cfg.startTime then
              [("start", JVal.num (cfg.startTime.getD 0))] else []) ++
           (if numTruthyI cfg.endTime then
              [("end", JVal.num (cfg.endTime.getD 0))] else [])))]
      else []
  | _ => []

/-- Models `if (detailsURL) activity.details_url = detailsURL`. -/
def detailsUrlField (cfg : Config) : List (String × JVal) :=
  if strTruthy cfg.detailsURL then
    [("details_url", .str (cfg.detailsURL.getD ""))]
  else []

/-- Models `if (stateURL) activity.state_url = stateURL`. -/
def stateUrlField (cfg : Config) : List (String × JVal) :=
  if strTruthy cfg.stateURL then [("state_url", .str (cfg.stateURL.getD ""))]
  else []

/-- Models `[a, b].filter(isTruthy)` over possibly-missing strings. -/
def filterTruthy (l : List (Option String)) : List String :=
  l.filterMap (fun x =>
    match x with
    | some s => if s = "" then none else some s
    | none => none)

/-- The button block: guarded by a truthy `buttonOneText`, it sets
`activity.buttons` to the truthy labels and `activity.metadata` to the
independently filtered URL list. -/
def buttonFields (cfg : Config) : List (String × JVal) :=
  if strTruthy cfg.buttonOneText then
    [("buttons",
      .arr ((filterTruthy [cfg.buttonOneText, cfg.buttonTwoText]).map .str)),
     ("metadata",
      .obj [("button_urls",
        .arr ((filterTruthy [cfg.buttonOneURL, cfg.buttonTwoURL]).map .str))])]
  else []

/-- The two image blocks merged: the small-image assignment spreads the
previous `activity.assets`, so the result is a single `assets` object
holding whichever slots are configured. -/
def assetsField (cfg : Config) (o : Oracles) : List (String × JVal) :=
  let big : List (String × JVal) :=
    if strTruthy cfg.imageBig then
      [("large_image", .str (o.resolve (cfg.imageBig.getD ""))),
       ("large_text", orUndef cfg.imageBigTooltip),
       ("large_url", orUndef cfg.imageBigURL)]
    else []
  let both : List (String × JVal) :=
    if strTruthy cfg.imageSmall then
      big ++
      [("small_image", .str (o.resolve (cfg.imageSmall.getD ""))),
       ("small_text", orUndef cfg.imageSmallTooltip),
       ("small_url", orUndef cfg.imageSmallURL)]
    else big
  if strTruthy cfg.imageBig || strTruthy cfg.imageSmall then
    [("assets", .obj both)]
  else []

/-- The keys passed to `getApplicationAsset` during one build, in call
order (big image first, then small image). -/
def assetCallKeys (cfg : Config) : List String :=
  (if strTruthy cfg.imageBig then [cfg.imageBig.getD ""] else []) ++
  (if strTruthy cfg.imageSmall then [cfg.imageSmall.getD ""] else [])

/-- The party block: requires both sizes truthy. -/
def partyField (cfg : Config) : List (String × JVal) :=
  if numTruthyI cfg.partyMaxSize && numTruthyI cfg.partySize then
    [("party", .obj [("size",
      .arr [.num (cfg.partySize.getD 0), .num (cfg.partyMaxSize.getD 0)])])]
  else []

/-- The fully assembled activity object before the pruning pass, in JS
property insertion order. -/
def assembleActivity (cfg : Config) (g : Globals) (o : Oracles) :
    List (String × JVal) :=
  baseFields cfg g o ++ urlField cfg ++ tsField cfg g o ++
  detailsUrlField cfg ++ stateUrlField cfg ++ buttonFields cfg ++
  assetsField cfg o ++ partyField cfg

/-- The pruning predicate: the loop keeps `type` unconditionally and
deletes every other field `v` with `!v || v.length === 0`. -/
def keepField (kv : String × JVal) : Bool :=
  kv.1 == "type" || (jsTruthyV kv.2 && !(jsLenZero kv.2))

/-- Result of one `createActivity` call: the produced activity (absent
when `appName` is missing), the updated module globals, and the keys sent
to the asset-resolution service. -/
structure BuildOut where
  activity : Option (List (String × JVal))
  g : Globals
  assetCalls : List String

/-- Models `createActivity`: short-circuits on a falsy `appName`; otherwise
resolves both rotating lanes (updating the last-pool and index globals),
assembles the activity object, updates the NOW anchor, performs the
pruning pass and reports the asset-service calls made. -/
def createActivity (cfg : Config) (g : Globals) (o : Oracles) : BuildOut :=
  if !(strTruthy cfg.appName) then ⟨none, g, []⟩
  else
    ⟨some ((assembleActivity cfg g o).filter keepField),
     { g with
        lastDetailsLines := (detailsLaneOut cfg g o).lastLines
        detailsCurrentIndex := (detailsLaneOut cfg g o).idx
        lastStateLines := (stateLaneOut cfg g o).lastLines
        stateCurrentIndex := (stateLaneOut cfg g o).idx
        nowModeStartTime := anchorAfter cfg g o },
     assetCallKeys cfg⟩

/-- The pruned activity object a build produces (empty when the build
returned absent). -/
def builtFields (cfg : Config) (g : Globals) (o : Oracles) :
    List (String × JVal) :=
  ((createActivity cfg g o).activity).getD []

/-- First value stored under key `k` in an activity object. -/
def lookupField (l : List (String × JVal)) (k : String) : Option JVal :=
  (l.find? (fun kv => kv.1 == k)).map (fun kv => kv.2)

/-- The two rotating lanes. -/
inductive Lane where
  | details
  | state
deriving DecidableEq

/-- One armed `setInterval` timer.  The callback closes over the mode and
the parsed line pool at arm time, so both are recorded with the timer,
together with the interval and the arm instant (the phase). -/
structure TimerRec where
  lane : Lane
  mode : String
  lines : List String
  intervalSec : Int
  armedAt : Int
deriving DecidableEq

/-- One event dispatched to the publish sink (`FluxDispatcher.dispatch`):
the `activity` payload is `null` on the disable path, and otherwise the
built record or JS `undefined` when `createActivity` returned nothing. -/
inductive PubEvent where
  | jsNull
  | jsUndef
  | act (fields : List (String × JVal))

/-- Whether a publish event carried the explicit `null` payload. -/
def isNullEvent : PubEvent → Bool
  | .jsNull => true
  | _ => false

/-- Number of `null` publish events in a sink history. -/
def nullCount (l : List PubEvent) : Nat := (l.filter isNullEvent).length

/-- The whole observable machine: module globals, the set of live timers
(keyed by their handle), a fresh-handle counter, and the publish-sink
history. -/
structure World where
  g : Globals := {}
  timers : List (Nat × TimerRec) := []
  nextId : Nat := 0
  published : List PubEvent := []

/-- Models `clearRotationIntervals`: cancel and null out each lane handle that
is set. -/
def clearRotationIntervals (w : World) : World :=
  let w1 :=
    match w.g.detailsIntervalId with
    | some i =>
        { w with timers := w.timers.filter (fun p => p.1 ≠ i),
                 g := { w.g with detailsIntervalId := none } }
    | none => w
  match w1.g.stateIntervalId with
  | some i =>
      { w1 with timers := w1.timers.filter (fun p => p.1 ≠ i),
                g := { w1.g with stateIntervalId := none } }
  | none => w1

/-- The guard of the details-lane arm block of `setupRotationIntervals`:
`detailsRandomMode && detailsRandomMode !== "disable" &&
detailsRandomLines && detailsRandomInterval && detailsRandomInterval > 0`. -/
def laneArmDetails (cfg : Config) : Bool :=
  strTruthy cfg.detailsRandomMode &&
  cfg.detailsRandomMode ≠ some "disable" &&
  strTruthy cfg.detailsRandomLines &&
  numTruthyI cfg.detailsRandomInterval &&
  cfg.detailsRandomInterval.getD 0 > 0

/-- The guard of the state-lane arm block of `setupRotationIntervals`. -/
def laneArmState (cfg : Config) : Bool :=
  strTruthy cfg.stateRandomMode &&
  cfg.stateRandomMode ≠ some "disable" &&
  strTruthy cfg.stateRandomLines &&
  numTruthyI cfg.stateRandomInterval &&
  cfg.stateRandomInterval.getD 0 > 0

/-- Models `setupRotationIntervals`: clear both lanes, then for each lane whose
guard passes and whose parsed pool has more than one line, record the
pool and arm a fresh repeating timer (the indices are not touched). -/
def setupRotationIntervals (cfg : Config) (o : Oracles) (w0 : World) :
    World :=
  let w := clearRotationIntervals w0
  let w :=
    if laneArmDetails cfg then
      let lines := parseLines (cfg.detailsRandomLines.getD "")
      if lines.length > 1 then
        { w with
            g := { w.g with lastDetailsLines := lines,
                            detailsIntervalId := some w.nextId },
            timers := w.timers ++
              [(w.nextId, ⟨Lane.details, cfg.detailsRandomMode.getD "",
                           lines, cfg.detailsRandomInterval.getD 0, o.now⟩)],
            nextId := w.nextId + 1 }
      else w
    else w
  if laneArmState cfg then
    let lines := parseLines (cfg.stateRandomLines.getD "")
    if lines.length > 1 then
      { w with
          g := { w.g with lastStateLines := lines,
                          stateIntervalId := some w.nextId },
          timers := w.timers ++
            [(w.nextId, ⟨Lane.state, cfg.stateRandomMode.getD "",
                         lines, cfg.stateRandomInterval.getD 0, o.now⟩)],
          nextId := w.nextId + 1 }
    else w
  else w

/-- Models `setRpc(disable?)`: re-arm (or on disable clear) the rotation
timers, run `createActivity`, and dispatch either the built activity or
an explicit `null` to the publish sink. -/
def setRpc (disable : Bool) (cfg : Config) (o : Oracles) (w0 : World) :
    World :=
  let w := if !disable then setupRotationIntervals cfg o w0
           else clearRotationIntervals w0
  let out := createActivity cfg w.g o
  let ev : PubEvent :=
    if !disable then
      match out.activity with
      | some a => .act a
      | none => .jsUndef
    else .jsNull
  { w with g := out.g, published := w.published ++ [ev] }

/-- The plugin `start` hook: initialize the NOW anchor when the
configured timestamp mode is NOW, arm rotation, publish once. -/
def pluginStart (cfg : Config) (o : Oracles) (w0 : World) : World :=
  let w :=
    if cfg.timestampMode = some TimestampMode.NOW then
      { w0 with g := { w0.g with nowModeStartTime := some o.now } }
    else w0
  let w := setupRotationIntervals cfg o w
  setRpc false cfg o w

/-- The plugin `stop` hook: clear the timers, clear the NOW anchor, and
publish the disable event. -/
def pluginStop (cfg : Config) (o : Oracles) (w0 : World) : World :=
  let w := clearRotationIntervals w0
  let w := { w with g := { w.g with nowModeStartTime := none } }
  setRpc true cfg o w

/-- One timer tick: if `tid` is a live timer, run its callback — advance
the owning lane index (random draw in mode "yes", successor modulo the
captured pool length otherwise) and call `setRpc()`.  A dead handle does
nothing. -/
def fireTimer (tid : Nat) (cfg : Config) (o : Oracles) (w : World) :
    World :=
  match w.timers.find? (fun p => p.1 = tid) with
  | none => w
  | some (_, t) =>
      let g :=
        match t.lane with
        | .details =>
            { w.g with detailsCurrentIndex :=
                if t.mode = "yes" then o.randD t.lines.length
                else (w.g.detailsCurrentIndex + 1) % t.lines.length }
        | .state =>
            { w.g with stateCurrentIndex :=
                if t.mode = "yes" then o.randS t.lines.length
                else (w.g.stateCurrentIndex + 1) % t.lines.length }
      setRpc false cfg o { w with g := g }

/-! ## Concrete instances used by witnesses and counterexamples -/

/-- Oracles with zeroed clock, zero random draws and a constant asset
resolver. -/
def oZero : Oracles := ⟨0, 0, fun _ => 0, fun _ => 0, fun _ => "asset"⟩

/-- The empty configuration (every setting missing). -/
def cfgEmpty : Config := {}

/-- The initial world: fresh globals, no timers, empty sink history. -/
def wEmpty : World := {}

/-- Configuration with `appName` present and timestamp mode TIME. -/
def cfgTimeMode : Config :=
  { appName := some "a", timestampMode := some TimestampMode.TIME }

/-- Globals holding a previously initialized NOW anchor. -/
def gAnchor5 : Globals := { nowModeStartTime := some 5 }

/-- Configuration with `appName` present and timestamp mode NOW. -/
def cfgNowMode : Config :=
  { appName := some "a", timestampMode := some TimestampMode.NOW }

/-- Button scenario configuration: first label and second URL set, first
URL and second label missing. -/
def cfgButtons (t u : String) : Config where
  appName := some "app"
  buttonOneText := some t
  buttonTwoURL := some u

/-- The concrete button scenario of the claim. -/
def cfgPlay : Config := cfgButtons "Play" "http://x"

/-- Configuration arming both rotation lanes in sequential mode. -/
def cfgRot : Config where
  appName := some "app"
  detailsRandomMode := some "no"
  detailsRandomLines := some "a\nb"
  detailsRandomInterval := some 1
  stateRandomMode := some "no"
  stateRandomLines := some "x\ny"
  stateRandomInterval := some 1

/-- Pruning scenario configuration: empty `details` text and explicit
zero `type`. -/
def cfgPruning : Config where
  appName := some "a"
  details := some ""
  type := some 0

/-- Stale-pool scenario: sequential details rotation over a freshly
edited two-line pool. -/
def cfgNewPool : Config where
  appName := some "a"
  detailsRandomMode := some "no"
  detailsRandomLines := some "x\ny"

/-- Globals recorded for the old three-line pool with the rotation index
already at 2. -/
def gOldPool : Globals :=
  { detailsCurrentIndex := 2, lastDetailsLines := ["a", "b", "c"] }

/-- A world whose details rotation index is already at 5. -/
def wIdxFive : World := { g := { detailsCurrentIndex := 5 } }

/-! ## Helper lemmas -/

theorem clearRotationIntervals_g (w : World) :
    (clearRotationIntervals w).g =
      { w.g with detailsIntervalId := none, stateIntervalId := none } := by
  obtain ⟨⟨a, b, c, d, e, f, n⟩, ts, ni, pub⟩ := w
  unfold clearRotationIntervals
  cases c <;> cases d <;> simp

theorem clearRotationIntervals_published (w : World) :
    (clearRotationIntervals w).published = w.published := by
  obtain ⟨⟨a, b, c, d, e, f, n⟩, ts, ni, pub⟩ := w
  unfold clearRotationIntervals
  cases c <;> cases d <;> simp

theorem clearRotationIntervals_nextId (w : World) :
    (clearRotationIntervals w).nextId = w.nextId := by
  obtain ⟨⟨a, b, c, d, e, f, n⟩, ts, ni, pub⟩ := w
  unfold clearRotationIntervals
  cases c <;> cases d <;> simp

theorem createActivity_intervalIds (cfg : Config) (g : Globals)
    (o : Oracles) :
    (createActivity cfg g o).g.detailsIntervalId = g.detailsIntervalId ∧
    (createActivity cfg g o).g.stateIntervalId = g.stateIntervalId := by
  unfold createActivity
  split <;> simp

theorem setRpc_disable_published (cfg : Config) (o : Oracles) (w : World) :
    (setRpc true cfg o w).published = w.published ++ [PubEvent.jsNull] := by
  unfold setRpc
  simp [clearRotationIntervals_published]

theorem setRpc_disable_ids (cfg : Config) (o : Oracles) (w : World) :
    (setRpc true cfg o w).g.detailsIntervalId = none ∧
    (setRpc true cfg o w).g.stateIntervalId = none := by
  unfold setRpc
  simp [createActivity_intervalIds, clearRotationIntervals_g]

theorem pluginStop_published (cfg : Config) (o : Oracles) (w : World) :
    (pluginStop cfg o w).published = w.published ++ [PubEvent.jsNull] := by
  unfold pluginStop
  simp [setRpc_disable_published, clearRotationIntervals_published]

theorem pluginStop_ids (cfg : Config) (o : Oracles) (w : World) :
    (pluginStop cfg o w).g.detailsIntervalId = none ∧
    (pluginStop cfg o w).g.stateIntervalId = none := by
  unfold pluginStop
  exact setRpc_disable_ids cfg o _

/-! ## Claims -/

/-- C1, counterexample.  The claim asserts that two consecutive `stop()`
calls publish exactly one `null` event in total.  In the code every
`stop()` runs `setRpc(true)`, which unconditionally dispatches a `null`
payload, so after two consecutive stops the sink history holds two
`null` events, not one. -/
theorem stop_twice_publishes_two_nulls_cex :
    nullCount ((pluginStop cfgEmpty oZero
      (pluginStop cfgEmpty oZero wEmpty)).published) = 2 ∧
    ¬ nullCount ((pluginStop cfgEmpty oZero
      (pluginStop cfgEmpty oZero wEmpty)).published) = 1 := by
  constructor <;> decide

/-- C1, amended.  Calling `stop()` twice in a row never throws and
leaves both lane timers cleared, but each call publishes its own `null`
event: after two consecutive stops the sink history has grown by exactly
two `null` events (one per call), not one. -/
theorem stop_twice_publishes_one_null_each (cfg : Config) (o : Oracles)
    (w : World) :
    (pluginStop cfg o (pluginStop cfg o w)).published =
      w.published ++ [PubEvent.jsNull, PubEvent.jsNull] ∧
    (pluginStop cfg o (pluginStop cfg o w)).g.detailsIntervalId = none ∧
    (pluginStop cfg o (pluginStop cfg o w)).g.stateIntervalId = none := by
  refine ⟨?_, (pluginStop_ids cfg o _).1, (pluginStop_ids cfg o _).2⟩
  rw [pluginStop_published, pluginStop_published, List.append_assoc]
  rfl

/-- C5, counterexample.  The claim asserts that the anchor is absent
whenever the timestamp mode is not NOW, i.e. that changing the mode away
from NOW clears it.  Running a build with mode TIME while the anchor
still holds the value 5 leaves the anchor set: no operation other than
`stop()` ever clears it. -/
theorem anchor_survives_mode_change_cex :
    cfgTimeMode.timestampMode ≠ some TimestampMode.NOW ∧
    (createActivity cfgTimeMode gAnchor5 oZero).g.nowModeStartTime =
      some 5 := by
  constructor <;> decide

/-- C5, amended.  A build whose timestamp mode is anything other than
NOW leaves the NOW anchor exactly as it was: the anchor is never cleared
by a mode change away from NOW (only the `stop()` hook clears it), so a
stale anchor persists while `timestampMode` is not NOW. -/
theorem build_nonNow_preserves_anchor (cfg : Config) (g : Globals)
    (o : Oracles) (h : cfg.timestampMode ≠ some TimestampMode.NOW) :
    (createActivity cfg g o).g.nowModeStartTime = g.nowModeStartTime := by
  unfold createActivity
  split
  · rfl
  · simp only
    unfold anchorAfter
    cases hm : cfg.timestampMode with
    | none => rfl
    | some m => cases m <;> simp_all

/-- C5 amended, witness. -/
theorem build_nonNow_preserves_anchor_witness :
    cfgTimeMode.timestampMode ≠ some TimestampMode.NOW ∧
    (createActivity cfgTimeMode gAnchor5 oZero).g.nowModeStartTime =
      gAnchor5.nowModeStartTime :=
  ⟨by decide,
   build_nonNow_preserves_anchor cfgTimeMode gAnchor5 oZero (by decide)⟩

/-- C7.  When `appName` is missing or empty, `createActivity` returns
absent, leaves the module globals untouched and makes no
asset-resolution call at all: the result is exactly
`⟨none, g, []⟩`. -/
theorem build_without_appName_absent (cfg : Config) (g : Globals)
    (o : Oracles) (h : strTruthy cfg.appName = false) :
    createActivity cfg g o = ⟨none, g, []⟩ := by
  unfold createActivity
  simp [h]

/-- C7, witness. -/
theorem build_without_appName_absent_witness :
    strTruthy cfgEmpty.appName = false ∧
    createActivity cfgEmpty { detailsCurrentIndex := 3 } oZero =
      ⟨none, { detailsCurrentIndex := 3 }, []⟩ :=
  ⟨by decide,
   build_without_appName_absent cfgEmpty { detailsCurrentIndex := 3 } oZero
     (by decide)⟩

theorem builtFields_eq (cfg : Config) (g : Globals) (o : Oracles)
    (h : strTruthy cfg.appName = true) :
    builtFields cfg g o = (assembleActivity cfg g o).filter keepField := by
  unfold builtFields createActivity
  simp [h]

theorem type_mem_assemble (cfg : Config) (g : Globals) (o : Oracles) :
    ("type", JVal.num (cfg.type.getD 0)) ∈ assembleActivity cfg g o := by
  unfold assembleActivity baseFields
  simp

/-- C9.  In every record the build produces, each field other than the
type discriminator has a truthy value that is not an empty sequence (so
a falsy or empty field, such as `details: ""`, never survives pruning),
while the `type` field is always present, holding `type ?? PLAYING` even
when that value is 0. -/
theorem pruning_keeps_only_truthy_except_type (cfg : Config) (g : Globals)
    (o : Oracles) (h : strTruthy cfg.appName = true) :
    (∀ kv ∈ builtFields cfg g o,
       kv.1 = "type" ∨ (jsTruthyV kv.2 = true ∧ jsLenZero kv.2 = false)) ∧
    ("type", JVal.num (cfg.type.getD 0)) ∈ builtFields cfg g o := by
  constructor
  · intro kv hm
    rw [builtFields_eq cfg g o h] at hm
    have hk := List.of_mem_filter hm
    unfold keepField at hk
    simp only [Bool.or_eq_true, beq_iff_eq, Bool.and_eq_true,
      Bool.not_eq_true'] at hk
    exact hk
  · rw [builtFields_eq cfg g o h]
    exact List.mem_filter.mpr
      ⟨type_mem_assemble cfg g o, by rfl⟩

/-- C9, witness (empty `details` text together with explicit `type` 0). -/
theorem pruning_keeps_only_truthy_except_type_witness :
    strTruthy cfgPruning.appName = true ∧
    ((∀ kv ∈ builtFields cfgPruning gAnchor5 oZero,
        kv.1 = "type" ∨ (jsTruthyV kv.2 = true ∧ jsLenZero kv.2 = false)) ∧
     ("type", JVal.num (cfgPruning.type.getD 0)) ∈
        builtFields cfgPruning gAnchor5 oZero) :=
  ⟨by decide,
   pruning_keeps_only_truthy_except_type cfgPruning gAnchor5 oZero
     (by decide)⟩

/-- C10.  With `appName` present but `appID` missing or empty, the built
record stores the string "0" under `application_id`, and this non-empty
(hence truthy) default survives the pruning pass. -/
theorem lookupField_filter_cons_self (k : String) (v : JVal)
    (rest : List (String × JVal)) (hkeep : keepField (k, v) = true) :
    lookupField (((k, v) :: rest).filter keepField) k = some v := by
  rw [List.filter_cons_of_pos hkeep]
  simp [lookupField, List.find?_cons_of_pos]

theorem default_application_id_zero (cfg : Config) (g : Globals)
    (o : Oracles) (h1 : strTruthy cfg.appName = true)
    (h2 : cfg.appID = none ∨ cfg.appID = some "") :
    lookupField (builtFields cfg g o) "application_id" =
      some (JVal.str "0") := by
  have hz : jsOrStr cfg.appID "0" = "0" := by
    rcases h2 with h | h <;> simp [jsOrStr, h]
  rw [builtFields_eq cfg g o h1]
  unfold assembleActivity baseFields
  rw [hz]
  simp only [List.cons_append]
  exact lookupField_filter_cons_self _ _ _ (by decide)

/-- C10, witness. -/
theorem default_application_id_zero_witness :
    strTruthy cfgPruning.appName = true ∧
    (cfgPruning.appID = none ∨ cfgPruning.appID = some "") ∧
    lookupField (builtFields cfgPruning gAnchor5 oZero) "application_id" =
      some (JVal.str "0") :=
  ⟨by decide, Or.inl (by decide),
   default_application_id_zero cfgPruning gAnchor5 oZero (by decide)
     (Or.inl (by decide))⟩

/-- C6.  In NOW mode with a caller-supplied (truthy) anchor `t`, the
build attaches a timestamps object whose start instant is exactly `t`,
and the anchor still holds `t` after the build. -/
theorem now_mode_uses_anchor_unchanged (cfg : Config) (g : Globals)
    (o : Oracles) (t : Int) (h1 : strTruthy cfg.appName = true)
    (h2 : cfg.timestampMode = some TimestampMode.NOW)
    (h3 : g.nowModeStartTime = some t) (h4 : t ≠ 0) :
    (createActivity cfg g o).g.nowModeStartTime = some t ∧
    ("timestamps", JVal.obj [("start", JVal.num t)]) ∈
      builtFields cfg g o := by
  have ha : anchorAfter cfg g o = some t := by
    unfold anchorAfter
    rw [h2]
    simp [numTruthyI, h3, h4]
  constructor
  · unfold createActivity
    simp [h1, ha]
  · rw [builtFields_eq cfg g o h1]
    refine List.mem_filter.mpr ⟨?_, by rfl⟩
    unfold assembleActivity tsField
    rw [h2]
    simp [ha]

/-- C6, witness. -/
theorem now_mode_uses_anchor_unchanged_witness :
    strTruthy cfgNowMode.appName = true ∧
    cfgNowMode.timestampMode = some TimestampMode.NOW ∧
    gAnchor5.nowModeStartTime = some 5 ∧
    ((createActivity cfgNowMode gAnchor5 oZero).g.nowModeStartTime =
       some 5 ∧
     ("timestamps", JVal.obj [("start", JVal.num 5)]) ∈
       builtFields cfgNowMode gAnchor5 oZero) :=
  ⟨by decide, by decide, by decide,
   now_mode_uses_anchor_unchanged cfgNowMode gAnchor5 oZero 5 (by decide)
     (by decide) (by decide) (by decide)⟩

/-- C2, counterexample.  For `buttonOneText = "Play"`, `buttonOneURL`
absent and `buttonTwoURL = "http://x"`, the claim asserts that the URL
at the missing first position is omitted without shifting, so that no
URL entry is paired with the "Play" button.  The code filters the URL
list with `isTruthy`, which compacts it: the built record carries
`button_urls = ["http://x"]`, placing the second URL in the first slot —
positionally paired with the single "Play" button. -/
theorem second_url_pairs_with_play_cex :
    lookupField (builtFields cfgPlay wEmpty.g oZero) "buttons" =
      some (JVal.arr [JVal.str "Play"]) ∧
    lookupField (builtFields cfgPlay wEmpty.g oZero) "metadata" =
      some (JVal.obj [("button_urls", JVal.arr [JVal.str "http://x"])]) := by
  constructor <;> rfl

/-- C2, amended.  In the scenario of the claim the build produces
buttons `["Play"]`, but the URL filter compacts the list instead of
keeping position holes: `button_urls` becomes `["http://x"]`, i.e. the
second URL is shifted into the first slot (the slot that positionally
pairs with the "Play" button); no empty or placeholder entry is kept for
the missing first URL. -/
theorem second_url_shifts_into_first_slot (t u : String) (g : Globals)
    (o : Oracles) (ht : t ≠ "") (hu : u ≠ "") :
    ("buttons", JVal.arr [JVal.str t]) ∈ builtFields (cfgButtons t u) g o ∧
    ("metadata", JVal.obj [("button_urls", JVal.arr [JVal.str u])]) ∈
      builtFields (cfgButtons t u) g o := by
  have h1 : strTruthy (cfgButtons t u).appName = true := by
    simp [cfgButtons, strTruthy]
  have hb : buttonFields (cfgButtons t u) =
      [("buttons", JVal.arr [JVal.str t]),
       ("metadata", JVal.obj [("button_urls", JVal.arr [JVal.str u])])] := by
    simp [buttonFields, cfgButtons, strTruthy, filterTruthy, ht, hu]
  constructor <;>
  · rw [builtFields_eq _ g o h1]
    refine List.mem_filter.mpr ⟨?_, by rfl⟩
    unfold assembleActivity
    rw [hb]
    simp

theorem parseLines_mem_ne_empty (s : String) (l : String)
    (h : l ∈ parseLines s) : l ≠ "" := by
  unfold parseLines at h
  have hf := List.of_mem_filter h
  intro he
  subst he
  simp [jsTrim] at hf

theorem string_length_eq_zero_iff (s : String) : s.length = 0 ↔ s = "" := by
  constructor
  · intro h
    cases s with
    | mk data =>
        cases data with
        | nil => rfl
        | cons c cs => simp [String.length] at h
  · intro h
    subst h
    rfl

/-- C8.  A build that observes a changed details pool (sequential mode,
non-empty fresh pool differing from the recorded one) resets the details
index to 0 before indexing: the resolved details text is the line at
index 0 of the fresh pool — a line that exists and is non-empty, so no
out-of-range access happens — and this holds whatever the previous index
was, even one past the length of the new pool. -/
theorem pool_change_resets_details_index (cfg : Config) (g : Globals)
    (o : Oracles) (h1 : strTruthy cfg.appName = true)
    (h2 : cfg.detailsRandomMode = some "no")
    (h3 : strTruthy cfg.detailsRandomLines = true)
    (h4 : 0 < (parseLines (cfg.detailsRandomLines.getD "")).length)
    (h5 : poolChanged g.lastDetailsLines
            (parseLines (cfg.detailsRandomLines.getD "")) = true) :
    (createActivity cfg g o).g.detailsCurrentIndex = 0 ∧
    ∃ d, (parseLines (cfg.detailsRandomLines.getD "")).get? 0 = some d ∧
      d ≠ "" ∧ ("details", JVal.str d) ∈ builtFields cfg g o := by
  obtain ⟨s, hs, hsne⟩ :
      ∃ s, cfg.detailsRandomLines = some s ∧ s ≠ "" := by
    cases hq : cfg.detailsRandomLines with
    | none => rw [hq] at h3; simp [strTruthy] at h3
    | some s =>
        refine ⟨s, rfl, ?_⟩
        rw [hq] at h3
        simpa [strTruthy] using h3
  rw [hs] at h4 h5 ⊢
  simp only [Option.getD] at h4 h5 ⊢
  have hget : (parseLines s).get? 0 =
      some ((parseLines s).get ⟨0, h4⟩) :=
    List.get?_eq_get h4
  set d := (parseLines s).get ⟨0, h4⟩ with hd
  have hdne : d ≠ "" :=
    parseLines_mem_ne_empty _ _ (List.get_mem _ _ _)
  have hlane : detailsLaneOut cfg g o = ⟨some d, parseLines s, 0⟩ := by
    unfold detailsLaneOut resolveLane
    rw [h2, hs]
    simp [strTruthy, hsne, h4, h5, hget]
    simp [hd, List.get_eq_getElem]
  refine ⟨?_, d, hget, hdne, ?_⟩
  · unfold createActivity
    simp [h1, hlane]
  · rw [builtFields_eq cfg g o h1]
    refine List.mem_filter.mpr ⟨?_, ?_⟩
    · unfold assembleActivity baseFields
      rw [hlane]
      simp [optStrVal]
    · unfold keepField
      simp [jsTruthyV, jsLenZero, hdne, string_length_eq_zero_iff]

/-- C8, witness: recorded pool of three lines with index 2, fresh
two-line pool. -/
theorem pool_change_resets_details_index_witness :
    strTruthy cfgNewPool.appName = true ∧
    cfgNewPool.detailsRandomMode = some "no" ∧
    strTruthy cfgNewPool.detailsRandomLines = true ∧
    0 < (parseLines (cfgNewPool.detailsRandomLines.getD "")).length ∧
    poolChanged gOldPool.lastDetailsLines
      (parseLines (cfgNewPool.detailsRandomLines.getD "")) = true ∧
    ((createActivity cfgNewPool gOldPool oZero).g.detailsCurrentIndex = 0 ∧
     ∃ d, (parseLines (cfgNewPool.detailsRandomLines.getD "")).get? 0 =
         some d ∧
       d ≠ "" ∧ ("details", JVal.str d) ∈
         builtFields cfgNewPool gOldPool oZero) :=
  ⟨by decide, by decide, by decide, by decide, by decide,
   pool_change_resets_details_index cfgNewPool gOldPool oZero (by decide)
     (by decide) (by decide) (by decide) (by decide)⟩

/-- C4, counterexample.  The claim asserts that arming a lane in
`start()` resets its rotation index to 0.  With the details index at 5
and a configuration whose details lane passes every arming precondition,
`setupRotationIntervals` records the pool and arms the timer, yet the
index stays 5. -/
theorem setup_leaves_stale_index_cex :
    laneArmDetails cfgRot = true ∧
    (parseLines (cfgRot.detailsRandomLines.getD "")).length > 1 ∧
    (setupRotationIntervals cfgRot oZero wIdxFive).g.detailsIntervalId =
      some 0 ∧
    (setupRotationIntervals cfgRot oZero wIdxFive).g.detailsCurrentIndex =
      5 ∧
    ¬ (setupRotationIntervals cfgRot oZero wIdxFive).g.detailsCurrentIndex
      = 0 := by
  refine ⟨by decide, by decide, by decide, by decide, by decide⟩

/-- C4, amended.  For every lane whose arming preconditions hold,
`setupRotationIntervals` (the arming step of `start()`) records the
parsed pool and arms the repeating timer, but it does not touch the
rotation index: both lane indices keep whatever value they had before
the call (a reset to 0 happens only later, inside the builder, when the
pool is observed to have changed). -/
theorem setup_arms_without_index_reset (cfg : Config) (o : Oracles)
    (w : World) (hd : laneArmDetails cfg = true)
    (hdl : (parseLines (cfg.detailsRandomLines.getD "")).length > 1)
    (hs : laneArmState cfg = true)
    (hsl : (parseLines (cfg.stateRandomLines.getD "")).length > 1) :
    (setupRotationIntervals cfg o w).g.detailsCurrentIndex =
      w.g.detailsCurrentIndex ∧
    (setupRotationIntervals cfg o w).g.stateCurrentIndex =
      w.g.stateCurrentIndex ∧
    (setupRotationIntervals cfg o w).g.lastDetailsLines =
      parseLines (cfg.detailsRandomLines.getD "") ∧
    (setupRotationIntervals cfg o w).g.lastStateLines =
      parseLines (cfg.stateRandomLines.getD "") ∧
    (setupRotationIntervals cfg o w).g.detailsIntervalId.isSome = true ∧
    (setupRotationIntervals cfg o w).g.stateIntervalId.isSome = true := by
  unfold setupRotationIntervals
  simp [hd, hs, hdl, hsl, clearRotationIntervals_g]

/-- C4 amended, witness. -/
theorem setup_arms_without_index_reset_witness :
    laneArmDetails cfgRot = true ∧
    (parseLines (cfgRot.detailsRandomLines.getD "")).length > 1 ∧
    laneArmState cfgRot = true ∧
    (parseLines (cfgRot.stateRandomLines.getD "")).length > 1 ∧
    ((setupRotationIntervals cfgRot oZero wIdxFive).g.detailsCurrentIndex =
       wIdxFive.g.detailsCurrentIndex ∧
     (setupRotationIntervals cfgRot oZero wIdxFive).g.stateCurrentIndex =
       wIdxFive.g.stateCurrentIndex ∧
     (setupRotationIntervals cfgRot oZero wIdxFive).g.lastDetailsLines =
       parseLines (cfgRot.detailsRandomLines.getD "") ∧
     (setupRotationIntervals cfgRot oZero wIdxFive).g.lastStateLines =
       parseLines (cfgRot.stateRandomLines.getD "") ∧
     (setupRotationIntervals cfgRot oZero
        wIdxFive).g.detailsIntervalId.isSome = true ∧
     (setupRotationIntervals cfgRot oZero
        wIdxFive).g.stateIntervalId.isSome = true) :=
  ⟨by decide, by decide, by decide, by decide,
   setup_arms_without_index_reset cfgRot oZero wIdxFive (by decide)
     (by decide) (by decide) (by decide)⟩

/-- C3, counterexample.  The claim asserts that a details-lane tick
leaves the timer handle of the state lane unchanged.  Starting the plugin
with both lanes armed yields the state handle 3; firing the details
timer (handle 2) runs `setRpc()`, which re-runs
`setupRotationIntervals`, cancelling and re-arming both timers: the
state handle afterwards is the fresh 5, not 3. -/
theorem details_tick_replaces_state_timer_cex :
    ((pluginStart cfgRot oZero wEmpty).timers.find?
        (fun p => p.1 = 2)).map (fun p => p.2.lane) = some Lane.details ∧
    (pluginStart cfgRot oZero wEmpty).g.stateIntervalId = some 3 ∧
    (fireTimer 2 cfgRot oZero
        (pluginStart cfgRot oZero wEmpty)).g.stateIntervalId = some 5 := by
  refine ⟨by decide, by decide, by decide⟩

/-- C3, amended.  For the two-lane sequential configuration, from every
prior rotation state: a details-lane tick advances only the details
index and leaves the state index unchanged, but — because the publish
call of the tick re-runs `setupRotationIntervals` — the timers of both
lanes are cancelled and re-armed with fresh handles, so the timer
handle of the state lane (and hence its phase) is replaced rather than
preserved. -/
theorem details_tick_keeps_state_index_but_rearms (d s : Nat)
    (lastD lastS : List String) (anchor : Option Int)
    (pub : List PubEvent) :
    (fireTimer
        (((pluginStart cfgRot oZero
            ⟨⟨d, s, none, none, lastD, lastS, anchor⟩, [], 0,
              pub⟩).g.detailsIntervalId).getD 0) cfgRot oZero
        (pluginStart cfgRot oZero
          ⟨⟨d, s, none, none, lastD, lastS, anchor⟩, [], 0,
            pub⟩)).g.stateCurrentIndex =
      (pluginStart cfgRot oZero
        ⟨⟨d, s, none, none, lastD, lastS, anchor⟩, [], 0,
          pub⟩).g.stateCurrentIndex ∧
    (pluginStart cfgRot oZero
        ⟨⟨d, s, none, none, lastD, lastS, anchor⟩, [], 0,
          pub⟩).g.stateIntervalId = some 3 ∧
    (fireTimer
        (((pluginStart cfgRot oZero
            ⟨⟨d, s, none, none, lastD, lastS, anchor⟩, [], 0,
              pub⟩).g.detailsIntervalId).getD 0) cfgRot oZero
        (pluginStart cfgRot oZero
          ⟨⟨d, s, none, none, lastD, lastS, anchor⟩, [], 0,
            pub⟩)).g.stateIntervalId = some 5 ∧
    (fireTimer
        (((pluginStart cfgRot oZero
            ⟨⟨d, s, none, none, lastD, lastS, anchor⟩, [], 0,
              pub⟩).g.detailsIntervalId).getD 0) cfgRot oZero
        (pluginStart cfgRot oZero
          ⟨⟨d, s, none, none, lastD, lastS, anchor⟩, [], 0,
            pub⟩)).g.detailsCurrentIndex =
      ((pluginStart cfgRot oZero
          ⟨⟨d, s, none, none, lastD, lastS, anchor⟩, [], 0,
            pub⟩).g.detailsCurrentIndex + 1) % 2 :=
  ⟨rfl, rfl, rfl, rfl⟩

/-- C2 amended, witness. -/
theorem second_url_shifts_into_first_slot_witness :
    ("Play" : String) ≠ "" ∧ ("http://x" : String) ≠ "" ∧
    (("buttons", JVal.arr [JVal.str "Play"]) ∈
       builtFields (cfgButtons "Play" "http://x") wEmpty.g oZero ∧
     ("metadata",
        JVal.obj [("button_urls", JVal.arr [JVal.str "http://x"])]) ∈
       builtFields (cfgButtons "Play" "http://x") wEmpty.g oZero) :=
  ⟨by decide, by decide,
   second_url_shifts_into_first_slot "Play" "http://x" wEmpty.g oZero
     (by decide) (by decide)⟩
